import Mathlib

/-!
Shallow embedding of the pet-adoption backend (FastAPI + SQLAlchemy) found in
`src/pythonapi/app`.  Rows of the five tables defined in `app/schemas/models.py`
become Lean structures, the database session becomes an explicit `DB` value,
and each HTTP handler becomes a function from its inputs (session cookie,
validated request body, current time) and the database to either an
`HttpError` (the `HTTPException` the handler raises; the transaction is rolled
back, so no `DB` is returned) or the response payload paired with the
database after `db.commit()`.  Timestamps (`datetime.utcnow()`) are modelled
as an explicit `now : Nat` argument, and the bcrypt hash (an external
collaborator per the spec) as an arbitrary function argument.
-/

namespace PetAdoption

/-- Mirrors `fastapi.HTTPException`: an HTTP status code plus a detail string. -/
structure HttpError where
  status_code : Nat
  detail : String
deriving Repr, DecidableEq

/-- The outcome of a handler: an `HTTPException`, or a payload together with
the committed database. -/
abbrev Api (α : Type) := Except HttpError α

/-- Row of the `users` table (`models.py`, class `User`). -/
structure User where
  user_id : Nat
  email : String
  password_hash : String
  display_name : String
  is_admin : Bool
  created_at : Nat
deriving Repr, DecidableEq

/-- Row of the `locations` table (`models.py`, class `Location`). -/
structure Location where
  location_id : Nat
  name : String
  address : String
  phone : String
deriving Repr, DecidableEq

/-- Row of the `pets` table (`models.py`, class `Pet`). -/
structure Pet where
  pet_id : Nat
  name : String
  species : String
  age : Nat
  description : Option String
  photo_url : Option String
  location_id : Nat
  status : String
deriving Repr, DecidableEq

/-- Row of the `applications` table (`models.py`, class `Application`). -/
structure Application where
  application_id : Nat
  user_id : Nat
  pet_id : Nat
  application_message : String
  contact_phone : String
  living_situation : String
  has_other_pets : Bool
  other_pets_details : Option String
  status : String
  admin_notes : Option String
  application_date : Nat
  reviewed_at : Option Nat
deriving Repr, DecidableEq

/-- Row of the `favorites` table (`models.py`, class `Favorite`). -/
structure Favorite where
  favorite_id : Nat
  user_id : Nat
  pet_id : Nat
  created_at : Nat
deriving Repr, DecidableEq

/-- The persistent store: the five tables plus the autoincrement counters of
their integer primary keys. -/
structure DB where
  users : List User
  locations : List Location
  pets : List Pet
  applications : List Application
  favorites : List Favorite
  next_user_id : Nat
  next_location_id : Nat
  next_pet_id : Nat
  next_application_id : Nat
  next_favorite_id : Nat
deriving Repr, DecidableEq

/-- Session resolution (`auth_endpoints.get_current_user`): the cookie value is
an email; a missing cookie or an email without a matching user is a 401. -/
def get_current_user (cookie : Option String) (db : DB) : Api User :=
  match cookie with
  | none => .error ⟨401, "Not authenticated"⟩
  | some email =>
    match db.users.find? (fun u => u.email == email) with
    | none => .error ⟨401, "User not found"⟩
    | some u => .ok u

/-- Request body of POST /applications (`schemas_application.ApplicationCreate`). -/
structure ApplicationCreate where
  pet_id : Nat
  application_message : String
  contact_phone : String
  living_situation : String
  has_other_pets : Bool
  other_pets_details : Option String
deriving Repr, DecidableEq

/-- Request body of PATCH /applications/{id} (`schemas_application.ApplicationUpdate`). -/
structure ApplicationUpdate where
  status : Option String
  admin_notes : Option String
deriving Repr, DecidableEq

/-- The pydantic pattern `^(pending|approved|rejected)$` on `ApplicationUpdate.status`. -/
def statusPattern (s : String) : Bool :=
  s == "pending" || s == "approved" || s == "rejected"

/-- Validation pydantic performs on an `ApplicationUpdate` before the handler
runs: the status, when present, matches `statusPattern`; the notes, when
present, are at most 2000 characters. -/
def ApplicationUpdate.valid (d : ApplicationUpdate) : Bool :=
  (match d.status with | none => true | some s => statusPattern s) &&
  (match d.admin_notes with | none => true | some n => n.length ≤ 2000)

/-- Handler of POST /applications (`applications_endpoints.create_application`):
resolve the user, 404 if the pet is absent, 400 if the user already has a
pending application for that pet, otherwise insert a fresh application whose
status is the model default `"pending"`. -/
def create_application (cookie : Option String) (data : ApplicationCreate)
    (now : Nat) (db : DB) : Api (Application × DB) := do
  let user ← get_current_user cookie db
  match db.pets.find? (fun p => p.pet_id == data.pet_id) with
  | none => .error ⟨404, "Pet not found"⟩
  | some _pet =>
    match db.applications.find? (fun a =>
        a.user_id == user.user_id && a.pet_id == data.pet_id &&
        a.status == "pending") with
    | some _ => .error ⟨400, "You already have a pending application for this pet"⟩
    | none =>
      let application : Application :=
        { application_id := db.next_application_id
          user_id := user.user_id
          pet_id := data.pet_id
          application_message := data.application_message
          contact_phone := data.contact_phone
          living_situation := data.living_situation
          has_other_pets := data.has_other_pets
          other_pets_details := data.other_pets_details
          status := "pending"
          admin_notes := none
          application_date := now
          reviewed_at := none }
      .ok (application,
        { db with applications := db.applications ++ [application]
                  next_application_id := db.next_application_id + 1 })

/-- Handler of PATCH /applications/{id} (`applications_endpoints.update_application`):
403 unless the caller is an admin, 404 if the id is absent; otherwise, when a
(truthy) status is supplied it is written together with `reviewed_at = now`,
and when `admin_notes` is not `None` it is written.  The handler performs no
check on the application's current status. -/
def update_application (cookie : Option String) (application_id : Nat)
    (data : ApplicationUpdate) (now : Nat) (db : DB) : Api (Application × DB) := do
  let user ← get_current_user cookie db
  if user.is_admin = false then
    .error ⟨403, "Admin access required"⟩
  else
    match db.applications.find? (fun a => a.application_id == application_id) with
    | none => .error ⟨404, "Application not found"⟩
    | some found =>
      let step1 : Application :=
        match data.status with
        | some s => if s == "" then found
                    else { found with status := s, reviewed_at := some now }
        | none => found
      let updated : Application :=
        match data.admin_notes with
        | some n => { step1 with admin_notes := some n }
        | none => step1
      .ok (updated,
        { db with applications := db.applications.map (fun a =>
            if a.application_id == application_id then updated else a) })

/-- Handler of DELETE /applications/{id} (`applications_endpoints.delete_application`):
404 if absent, 403 unless admin or owner, otherwise delete the row (by primary
key) and nothing else. -/
def delete_application (cookie : Option String) (application_id : Nat)
    (db : DB) : Api (String × DB) := do
  let user ← get_current_user cookie db
  match db.applications.find? (fun a => a.application_id == application_id) with
  | none => .error ⟨404, "Application not found"⟩
  | some application =>
    if user.is_admin = false && !(application.user_id == user.user_id) then
      .error ⟨403, "Not authorized"⟩
    else
      .ok ("Application deleted successfully",
        { db with applications := db.applications.filter (fun a =>
            a.application_id != application.application_id) })

/-- Insertion into a list kept in descending order of `key` (used to model the
SQL `ORDER BY ... DESC`). -/
def insertDescBy {α : Type} (key : α → Nat) (x : α) : List α → List α
  | [] => [x]
  | y :: ys => if key y < key x then x :: y :: ys else y :: insertDescBy key x ys

/-- Sorting in descending order of `key` (the SQL `ORDER BY ... DESC`). -/
def sortDescBy {α : Type} (key : α → Nat) : List α → List α
  | [] => []
  | x :: xs => insertDescBy key x (sortDescBy key xs)

/-- The SQL inner join of `applications` with `users` and `pets` on the two id
columns, as built by `list_applications` and `get_application`. -/
def joinedRows (db : DB) : List (Application × User × Pet) :=
  db.applications.flatMap (fun a =>
    (db.users.filter (fun u => a.user_id == u.user_id)).flatMap (fun u =>
      (db.pets.filter (fun p => a.pet_id == p.pet_id)).map (fun p => (a, u, p))))

/-- Response row of GET /applications
(`schemas_application.ApplicationWithDetails`). -/
structure ApplicationWithDetails where
  application_id : Nat
  user_id : Nat
  pet_id : Nat
  application_message : String
  contact_phone : String
  living_situation : String
  has_other_pets : Bool
  other_pets_details : Option String
  status : String
  admin_notes : Option String
  application_date : Nat
  reviewed_at : Option Nat
  user_email : String
  user_name : String
  pet_name : String
  pet_species : String
  pet_age : Nat
  pet_photo_url : Option String
deriving Repr, DecidableEq

/-- Packs one joined row into the response shape, exactly as the loop at the
end of `list_applications` does. -/
def mkDetails (r : Application × User × Pet) : ApplicationWithDetails :=
  { application_id := r.1.application_id
    user_id := r.1.user_id
    pet_id := r.1.pet_id
    application_message := r.1.application_message
    contact_phone := r.1.contact_phone
    living_situation := r.1.living_situation
    has_other_pets := r.1.has_other_pets
    other_pets_details := r.1.other_pets_details
    status := r.1.status
    admin_notes := r.1.admin_notes
    application_date := r.1.application_date
    reviewed_at := r.1.reviewed_at
    user_email := r.2.1.email
    user_name := r.2.1.display_name
    pet_name := r.2.2.name
    pet_species := r.2.2.species
    pet_age := r.2.2.age
    pet_photo_url := r.2.2.photo_url }

/-- Handler of GET /applications (`applications_endpoints.list_applications`):
join, restrict non-admins to their own rows, apply the status filter when the
query parameter is truthy (Python `if status:` — absent or empty means no
filter), and sort by submission date, newest first. -/
def list_applications (cookie : Option String) (status : Option String)
    (db : DB) : Api (List ApplicationWithDetails) := do
  let user ← get_current_user cookie db
  let rows := joinedRows db
  let rows := if user.is_admin then rows
              else rows.filter (fun r => r.1.user_id == user.user_id)
  let rows := match status with
              | none => rows
              | some s => if s == "" then rows
                          else rows.filter (fun r => r.1.status == s)
  .ok ((sortDescBy (fun r => r.1.application_date) rows).map mkDetails)

/-- Response of GET /applications/stats. -/
structure StatsResult where
  pending : Nat
  approved : Nat
  rejected : Nat
  total : Nat
deriving Repr, DecidableEq

/-- Handler of GET /applications/stats
(`applications_endpoints.get_application_stats`): 403 unless admin; otherwise
the `GROUP BY status` loop leaves each of the three named keys at the number
of applications carrying that status and accumulates every group's count into
`total`, so `total` is the number of all applications. -/
def get_application_stats (cookie : Option String) (db : DB) : Api StatsResult := do
  let user ← get_current_user cookie db
  if user.is_admin = false then
    .error ⟨403, "Admin access required"⟩
  else
    .ok { pending := (db.applications.filter (fun a => a.status == "pending")).length
          approved := (db.applications.filter (fun a => a.status == "approved")).length
          rejected := (db.applications.filter (fun a => a.status == "rejected")).length
          total := db.applications.length }

/-- Handler of POST /favorites/{pet_id} (`favorites_endpoints.add_favorite`):
404 if the pet is absent, 400 if the caller already has a favorite for it,
otherwise insert a favorite owned by the caller. -/
def add_favorite (cookie : Option String) (pet_id : Nat) (now : Nat)
    (db : DB) : Api (String × DB) := do
  let user ← get_current_user cookie db
  match db.pets.find? (fun p => p.pet_id == pet_id) with
  | none => .error ⟨404, "Pet not found"⟩
  | some _pet =>
    match db.favorites.find? (fun f =>
        f.user_id == user.user_id && f.pet_id == pet_id) with
    | some _ => .error ⟨400, "Pet already in favorites"⟩
    | none =>
      let favorite : Favorite :=
        { favorite_id := db.next_favorite_id
          user_id := user.user_id
          pet_id := pet_id
          created_at := now }
      .ok ("Pet added to favorites",
        { db with favorites := db.favorites ++ [favorite]
                  next_favorite_id := db.next_favorite_id + 1 })

/-- Handler of DELETE /favorites/{pet_id} (`favorites_endpoints.remove_favorite`):
404 if the caller has no favorite for the pet, otherwise delete the found row
(by primary key). -/
def remove_favorite (cookie : Option String) (pet_id : Nat)
    (db : DB) : Api (String × DB) := do
  let user ← get_current_user cookie db
  match db.favorites.find? (fun f =>
      f.user_id == user.user_id && f.pet_id == pet_id) with
  | none => .error ⟨404, "Pet not in favorites"⟩
  | some favorite =>
    .ok ("Pet removed from favorites",
      { db with favorites := db.favorites.filter (fun f =>
          f.favorite_id != favorite.favorite_id) })

/-- Handler of GET /favorites/check/{pet_id} (`favorites_endpoints.check_favorite`):
whether the caller has a favorite for the pet; never fails once authenticated. -/
def check_favorite (cookie : Option String) (pet_id : Nat) (db : DB) : Api Bool := do
  let user ← get_current_user cookie db
  .ok (db.favorites.find? (fun f =>
      f.user_id == user.user_id && f.pet_id == pet_id)).isSome

/-- Handler of GET /favorites (`favorites_endpoints.list_favorites`): pets
joined against the caller's favorites, newest favorite first. -/
def list_favorites (cookie : Option String) (db : DB) : Api (List Pet) := do
  let user ← get_current_user cookie db
  let rows := db.pets.flatMap (fun p =>
    (db.favorites.filter (fun f =>
        p.pet_id == f.pet_id && f.user_id == user.user_id)).map (fun f => (p, f)))
  .ok ((sortDescBy (fun r => r.2.created_at) rows).map (fun r => r.1))

/-- Handler of GET /favorites/list-ids (`favorites_endpoints.list_favorite_ids`):
the pet ids of the caller's favorites. -/
def list_favorite_ids (cookie : Option String) (db : DB) : Api (List Nat) := do
  let user ← get_current_user cookie db
  .ok ((db.favorites.filter (fun f => f.user_id == user.user_id)).map
    (fun f => f.pet_id))

/-- Request body of POST /locations after pydantic validation
(`schemas_location.LocationCreate`): the phone validator has already turned a
missing phone into the empty string. -/
structure LocationCreate where
  name : String
  address : String
  phone : String
deriving Repr, DecidableEq

/-- Handler of POST /locations (`locations_endpoints.create_location`).  The
source handler declares no authentication dependency at all — it never reads
the session cookie — so the cookie argument is ignored; every request inserts
the location.  The Python `data.get("phone") or ""` turns a falsy phone into
the empty string. -/
def create_location (_cookie : Option String) (payload : LocationCreate)
    (db : DB) : Api (Location × DB) :=
  let phone := if payload.phone == "" then "" else payload.phone
  let obj : Location :=
    { location_id := db.next_location_id
      name := payload.name
      address := payload.address
      phone := phone }
  .ok (obj,
    { db with locations := db.locations ++ [obj]
              next_location_id := db.next_location_id + 1 })

/-- Request body of POST /auth/register (`schemas_auth.RegisterRequest`): the
fields the `register` handler reads. -/
structure RegisterRequest where
  email : String
  password : String
  display_name : String
deriving Repr, DecidableEq

/-- Handler of POST /auth/register (`auth_endpoints.register`): 400 if the
email is taken, otherwise insert a user whose `is_admin` is the literal
`False` — the request payload carries no admin flag and the handler would
ignore one.  `hashPassword` abstracts bcrypt (external collaborator). -/
def register (hashPassword : String → String) (data : RegisterRequest)
    (now : Nat) (db : DB) : Api (User × DB) :=
  match db.users.find? (fun u => u.email == data.email) with
  | some _ => .error ⟨400, "Email already registered"⟩
  | none =>
    let new_user : User :=
      { user_id := db.next_user_id
        email := data.email
        password_hash := hashPassword data.password
        display_name := data.display_name
        is_admin := false
        created_at := now }
    .ok (new_user,
      { db with users := db.users ++ [new_user]
                next_user_id := db.next_user_id + 1 })

/-- Request body of POST /users (`schemas_auth.UserCreate`): the fields the
`create_user` handler reads; unlike registration it carries an admin flag. -/
structure UserCreate where
  email : String
  password : String
  display_name : String
  is_admin : Bool
deriving Repr, DecidableEq

/-- Handler of POST /users (`users_endpoints.create_user`): guarded by
`require_admin` (401 when unauthenticated, 403 when the caller is not an
admin); 400 if the email is taken; otherwise insert a user whose `is_admin`
comes from the payload. -/
def create_user (hashPassword : String → String) (cookie : Option String)
    (user_data : UserCreate) (now : Nat) (db : DB) : Api (User × DB) := do
  let user ← get_current_user cookie db
  if user.is_admin = false then
    .error ⟨403, "Admin privileges required"⟩
  else
    match db.users.find? (fun u => u.email == user_data.email) with
    | some _ => .error ⟨400, "Email already registered"⟩
    | none =>
      let new_user : User :=
        { user_id := db.next_user_id
          email := user_data.email
          password_hash := hashPassword user_data.password
          display_name := user_data.display_name
          is_admin := user_data.is_admin
          created_at := now }
      .ok (new_user,
        { db with users := db.users ++ [new_user]
                  next_user_id := db.next_user_id + 1 })

/-! Helper lemmas about the descending sort, and concrete fixtures used by the
witness theorems. -/

/-- Fixture admin account. -/
def adminU : User := ⟨1, "admin@x", "h1", "Admin", true, 0⟩

/-- Fixture regular account. -/
def aliceU : User := ⟨2, "alice@x", "h2", "Alice", false, 0⟩

/-- Fixture second regular account. -/
def bobU : User := ⟨3, "bob@x", "h3", "Bob", false, 0⟩

/-- Fixture shelter. -/
def loc0 : Location := ⟨1, "Downtown Shelter", "1 Main St", ""⟩

/-- Fixture pet housed at `loc0`. -/
def pet0 : Pet := ⟨1, "Max", "dog", 3, none, none, 1, "approved"⟩

/-- Fixture application by `aliceU` for `pet0`, already reviewed and approved. -/
def appApproved : Application :=
  ⟨1, 2, 1, "I have a large fenced yard and lots of experience with dogs.",
   "3061234567", "house", false, none, "approved", none, 0, some 1⟩

/-- Fixture database holding the three users, the shelter, the pet and the
approved application. -/
def baseDB : DB := ⟨[adminU, aliceU, bobU], [loc0], [pet0], [appApproved], [], 4, 2, 2, 2, 1⟩

/-- Fixture application form for `pet0`. -/
def appData : ApplicationCreate :=
  ⟨1, "We live near a park and would walk Max twice a day, every day.",
   "3069876543", "apartment", false, none⟩

/-- Fixture pending application by `aliceU` for `pet0`. -/
def appPending : Application :=
  ⟨1, 2, 1, "I have a large fenced yard and lots of experience with dogs.",
   "3061234567", "house", false, none, "pending", none, 0, none⟩

/-- Fixture database identical to `baseDB` except that Alice's application is
still pending. -/
def pendingDB : DB := ⟨[adminU, aliceU, bobU], [loc0], [pet0], [appPending], [], 4, 2, 2, 2, 1⟩

/-- Fixture location payload. -/
def locData : LocationCreate := ⟨"Northside Shelter", "2 Oak Ave", ""⟩

/-- The Favorites Ledger invariant: at most one favorite row per (user, pet)
pair. -/
def AtMostOnePerPair (db : DB) : Prop :=
  ∀ uid pid,
    (db.favorites.filter (fun f => f.user_id == uid && f.pet_id == pid)).length ≤ 1

/-- The favorite row a successful `add_favorite` inserts. -/
def addedFav (db : DB) (u : User) (pid now : Nat) : Favorite :=
  ⟨db.next_favorite_id, u.user_id, pid, now⟩

/-- The database a successful `add_favorite` commits: the caller's new
favorite appended, the id counter advanced, everything else untouched. -/
def dbAfterAdd (db : DB) (u : User) (pid now : Nat) : DB :=
  { db with favorites := db.favorites ++ [addedFav db u pid now]
            next_favorite_id := db.next_favorite_id + 1 }

/-- The database with its favorites table cut down to the rows owned by one
user; reads that only consult the caller's own rows are insensitive to this
cut. -/
def ownFavoritesOnly (db : DB) (u : User) : DB :=
  { db with favorites := db.favorites.filter (fun f => f.user_id == u.user_id) }

/-- The location row `create_location` inserts for a given payload: the
Python `data.get("phone") or ""` maps a falsy phone to the empty string. -/
def newLocation (payload : LocationCreate) (db : DB) : Location :=
  { location_id := db.next_location_id
    name := payload.name
    address := payload.address
    phone := if payload.phone == "" then "" else payload.phone }

/-- The database a `create_location` call commits. -/
def dbAfterLocation (payload : LocationCreate) (db : DB) : DB :=
  { db with locations := db.locations ++ [newLocation payload db]
            next_location_id := db.next_location_id + 1 }

theorem api_bind_ok {α β : Type} (a : α) (f : α → Api β) :
    (do let x ← (.ok a : Api α); f x) = f a := rfl

theorem api_bind_error {α β : Type} (e : HttpError) (f : α → Api β) :
    (do let x ← (.error e : Api α); f x) = .error e := rfl

theorem mem_insertDescBy {α : Type} (key : α → Nat) (x a : α) (l : List α) :
    a ∈ insertDescBy key x l ↔ a = x ∨ a ∈ l := by
  induction l with
  | nil => simp [insertDescBy]
  | cons y ys ih =>
    by_cases h : key y < key x
    · simp [insertDescBy, h]
    · simp [insertDescBy, h, ih]
      tauto

theorem mem_sortDescBy {α : Type} (key : α → Nat) (a : α) (l : List α) :
    a ∈ sortDescBy key l ↔ a ∈ l := by
  induction l with
  | nil => simp [sortDescBy]
  | cons y ys ih => simp [sortDescBy, mem_insertDescBy, ih]


/-- C1: the claim asserts that `approved` and `rejected` are terminal — an
admin PATCH on such an application never changes its status.  The code has no
such guard: on `baseDB`, whose only application has status `"approved"`, an
admin PATCH requesting `"pending"` succeeds and the returned application's
status is `"pending"`, not `"approved"`. -/
theorem C1_counterexample :
    ∃ r, update_application (some "admin@x") 1 ⟨some "pending", none⟩ 5 baseDB = .ok r
      ∧ baseDB.applications.find? (fun a => a.application_id == 1) = some appApproved
      ∧ appApproved.status = "approved"
      ∧ (⟨some "pending", none⟩ : ApplicationUpdate).valid = true
      ∧ r.1.status = "pending" :=
  ⟨_, rfl, rfl, rfl, rfl, rfl⟩

/-- C1 (amended): an admin PATCH that supplies a (non-empty) status sets the
application's status to exactly the requested value and stamps `reviewed_at`,
whatever the current status is — terminal states are not enforced by the
code. -/
theorem C1_amended_patch_sets_requested_status
    (cookie : Option String) (appid now : Nat) (data : ApplicationUpdate)
    (db : DB) (u : User) (a : Application) (s : String)
    (hu : get_current_user cookie db = .ok u)
    (hadmin : u.is_admin = true)
    (hfind : db.applications.find? (fun x => x.application_id == appid) = some a)
    (hs : data.status = some s) (hsne : s ≠ "") :
    ∃ r, update_application cookie appid data now db = .ok r
      ∧ r.1.status = s ∧ r.1.reviewed_at = some now := by
  have hbeq : (s == "") = false := beq_eq_false_iff_ne.mpr hsne
  cases hn : data.admin_notes with
  | none =>
    refine ⟨({ a with status := s, reviewed_at := some now },
      { db with applications := db.applications.map (fun x =>
          if x.application_id == appid then { a with status := s, reviewed_at := some now }
          else x) }), ?_, rfl, rfl⟩
    simp [update_application, api_bind_ok, hu, hadmin, hfind, hs, hn, hbeq]
  | some n =>
    refine ⟨({ a with status := s, reviewed_at := some now, admin_notes := some n },
      { db with applications := db.applications.map (fun x =>
          if x.application_id == appid then
            { a with status := s, reviewed_at := some now, admin_notes := some n }
          else x) }), ?_, rfl, rfl⟩
    simp [update_application, api_bind_ok, hu, hadmin, hfind, hs, hn, hbeq]

/-- Witness for the amended C1 at a concrete input: on `baseDB` the admin
PATCH requesting `"rejected"` on the already-approved application yields
status `"rejected"` with `reviewed_at = 7`. -/
theorem C1_amended_witness :
    ∃ r, update_application (some "admin@x") 1 ⟨some "rejected", none⟩ 7 baseDB = .ok r
      ∧ r.1.status = "rejected" ∧ r.1.reviewed_at = some 7 :=
  C1_amended_patch_sets_requested_status (some "admin@x") 1 7
    ⟨some "rejected", none⟩ baseDB adminU appApproved "rejected"
    rfl rfl rfl rfl (by decide)

/-- C8: an admin PATCH carrying only `admin_notes` (no status) rewrites the
found application to `{ a with admin_notes := some n }` — every field other
than `admin_notes`, in particular `status` and `reviewed_at`, is unchanged —
and the store changes only at that application's id. -/
theorem C8_notes_only_patch_frames_all_other_fields
    (cookie : Option String) (appid now : Nat) (n : String)
    (db : DB) (u : User) (a : Application)
    (hu : get_current_user cookie db = .ok u)
    (hadmin : u.is_admin = true)
    (hfind : db.applications.find? (fun x => x.application_id == appid) = some a) :
    update_application cookie appid ⟨none, some n⟩ now db =
      .ok ({ a with admin_notes := some n },
        { db with applications := db.applications.map (fun x =>
            if x.application_id == appid then { a with admin_notes := some n } else x) })
      ∧ ({ a with admin_notes := some n } : Application).status = a.status
      ∧ ({ a with admin_notes := some n } : Application).reviewed_at = a.reviewed_at := by
  refine ⟨?_, rfl, rfl⟩
  simp [update_application, api_bind_ok, hu, hadmin, hfind]

/-- Witness for C8 at a concrete input: a notes-only PATCH on `baseDB` leaves
the approved application approved, with its review timestamp intact. -/
theorem C8_witness :
    update_application (some "admin@x") 1 ⟨none, some "great yard"⟩ 9 baseDB =
      .ok ({ appApproved with admin_notes := some "great yard" },
        { baseDB with applications := baseDB.applications.map (fun x =>
            if x.application_id == 1 then { appApproved with admin_notes := some "great yard" } else x) })
      ∧ ({ appApproved with admin_notes := some "great yard" } : Application).status = appApproved.status
      ∧ ({ appApproved with admin_notes := some "great yard" } : Application).reviewed_at = appApproved.reviewed_at :=
  C8_notes_only_patch_frames_all_other_fields (some "admin@x") 1 9 "great yard"
    baseDB adminU appApproved rfl rfl rfl

/-- C2: creating an application by an authenticated user: 404 and nothing
created when the pet is absent; 400 and nothing created when the user already
has a pending application for that pet; otherwise a fresh application with
status `"pending"` is inserted and returned.  An error outcome carries no
database, which models the rolled-back transaction (nothing is created). -/
theorem C2_create_application_cases
    (cookie : Option String) (data : ApplicationCreate) (now : Nat)
    (db : DB) (u : User)
    (hu : get_current_user cookie db = .ok u) :
    (db.pets.find? (fun p => p.pet_id == data.pet_id) = none →
      create_application cookie data now db = .error ⟨404, "Pet not found"⟩)
    ∧ (∀ pet, db.pets.find? (fun p => p.pet_id == data.pet_id) = some pet →
        ∀ e, db.applications.find? (fun a =>
            a.user_id == u.user_id && a.pet_id == data.pet_id &&
            a.status == "pending") = some e →
        create_application cookie data now db =
          .error ⟨400, "You already have a pending application for this pet"⟩)
    ∧ (∀ pet, db.pets.find? (fun p => p.pet_id == data.pet_id) = some pet →
        db.applications.find? (fun a =>
            a.user_id == u.user_id && a.pet_id == data.pet_id &&
            a.status == "pending") = none →
        ∃ app db', create_application cookie data now db = .ok (app, db')
          ∧ app.status = "pending" ∧ app.user_id = u.user_id
          ∧ app.pet_id = data.pet_id
          ∧ db'.applications = db.applications ++ [app]) := by
  refine ⟨?_, ?_, ?_⟩
  · intro hp
    simp [create_application, api_bind_ok, hu, hp]
  · intro pet hp e he
    simp [create_application, api_bind_ok, hu, hp, he]
  · intro pet hp he
    refine ⟨{ application_id := db.next_application_id
              user_id := u.user_id
              pet_id := data.pet_id
              application_message := data.application_message
              contact_phone := data.contact_phone
              living_situation := data.living_situation
              has_other_pets := data.has_other_pets
              other_pets_details := data.other_pets_details
              status := "pending"
              admin_notes := none
              application_date := now
              reviewed_at := none },
      { db with applications := db.applications ++ [_]
                next_application_id := db.next_application_id + 1 },
      ?_, rfl, rfl, rfl, rfl⟩
    simp [create_application, api_bind_ok, hu, hp, he]

/-- Witness for C2 at concrete inputs: on `pendingDB` (Alice already has a
pending application for Max) a second submission by Alice is a 400 Conflict;
on `baseDB` (her application is approved, none pending) a submission by Bob
for a nonexistent pet is a 404; Bob's submission for Max succeeds as pending. -/
theorem C2_witness :
    create_application (some "alice@x") appData 3 pendingDB =
      .error ⟨400, "You already have a pending application for this pet"⟩
    ∧ create_application (some "bob@x") { appData with pet_id := 99 } 3 baseDB =
      .error ⟨404, "Pet not found"⟩
    ∧ ∃ app db', create_application (some "bob@x") appData 3 baseDB = .ok (app, db')
        ∧ app.status = "pending" ∧ app.user_id = bobU.user_id
        ∧ app.pet_id = appData.pet_id
        ∧ db'.applications = baseDB.applications ++ [app] := by
  refine ⟨?_, ?_, ?_⟩
  · exact (C2_create_application_cases (some "alice@x") appData 3 pendingDB aliceU
      rfl).2.1 pet0 rfl appPending rfl
  · exact (C2_create_application_cases (some "bob@x") { appData with pet_id := 99 } 3 baseDB bobU
      rfl).1 rfl
  · exact (C2_create_application_cases (some "bob@x") appData 3 baseDB bobU
      rfl).2.2 pet0 rfl rfl

/-- C6: when every application the user has for the pet is `approved` or
`rejected` (none pending) and the pet exists, a new submission succeeds and
is created with status `"pending"`. -/
theorem C6_resubmission_after_terminal_status_succeeds
    (cookie : Option String) (data : ApplicationCreate) (now : Nat)
    (db : DB) (u : User) (pet : Pet)
    (hu : get_current_user cookie db = .ok u)
    (hp : db.pets.find? (fun p => p.pet_id == data.pet_id) = some pet)
    (hterm : ∀ a ∈ db.applications, a.user_id = u.user_id → a.pet_id = data.pet_id →
      a.status = "approved" ∨ a.status = "rejected") :
    ∃ app db', create_application cookie data now db = .ok (app, db')
      ∧ app.status = "pending"
      ∧ db'.applications = db.applications ++ [app] := by
  have hnone : db.applications.find? (fun a =>
      a.user_id == u.user_id && a.pet_id == data.pet_id &&
      a.status == "pending") = none := by
    rw [List.find?_eq_none]
    intro a ha
    simp only [Bool.and_eq_true, beq_iff_eq, not_and]
    intro h1 h2
    rcases hterm a ha h1.1 h1.2 with h | h <;> simp [h] at h2
  refine ⟨{ application_id := db.next_application_id
            user_id := u.user_id
            pet_id := data.pet_id
            application_message := data.application_message
            contact_phone := data.contact_phone
            living_situation := data.living_situation
            has_other_pets := data.has_other_pets
            other_pets_details := data.other_pets_details
            status := "pending"
            admin_notes := none
            application_date := now
            reviewed_at := none },
    { db with applications := db.applications ++ [_]
              next_application_id := db.next_application_id + 1 },
    ?_, rfl, rfl⟩
  simp [create_application, api_bind_ok, hu, hp, hnone]

/-- Witness for C6 at a concrete input: on `baseDB` Alice's only application
for Max is approved, so her resubmission succeeds as a fresh pending
application. -/
theorem C6_witness :
    ∃ app db', create_application (some "alice@x") appData 4 baseDB = .ok (app, db')
      ∧ app.status = "pending"
      ∧ db'.applications = baseDB.applications ++ [app] :=
  C6_resubmission_after_terminal_status_succeeds (some "alice@x") appData 4
    baseDB aliceU pet0 rfl rfl (by decide)

/-- Counting helper: when every application's status is one of the three
workflow states, the three per-status group counts sum to the table size. -/
theorem three_status_count (l : List Application)
    (h : ∀ a ∈ l, a.status = "pending" ∨ a.status = "approved" ∨ a.status = "rejected") :
    (l.filter (fun a => a.status == "pending")).length
      + (l.filter (fun a => a.status == "approved")).length
      + (l.filter (fun a => a.status == "rejected")).length = l.length := by
  induction l with
  | nil => simp
  | cons x xs ih =>
    have hx := h x (List.mem_cons_self x xs)
    have hxs := ih (fun a ha => h a (List.mem_cons_of_mem x ha))
    rcases hx with h1 | h1 | h1 <;>
      simp [List.filter_cons, h1] <;> omega

/-- C7: GET /applications/stats is a 403 for every authenticated non-admin,
and for an admin it returns per-status counts whose `total` equals
`pending + approved + rejected` whenever every stored application carries one
of the three workflow statuses (the only statuses the API can store). -/
theorem C7_stats_admin_only_and_total
    (cookie : Option String) (db : DB) (u : User)
    (hu : get_current_user cookie db = .ok u) :
    (u.is_admin = false →
      get_application_stats cookie db = .error ⟨403, "Admin access required"⟩)
    ∧ (u.is_admin = true →
      (∀ a ∈ db.applications,
        a.status = "pending" ∨ a.status = "approved" ∨ a.status = "rejected") →
      ∃ r, get_application_stats cookie db = .ok r
        ∧ r.total = r.pending + r.approved + r.rejected) := by
  constructor
  · intro hna
    simp [get_application_stats, api_bind_ok, hu, hna]
  · intro ha hall
    refine ⟨{ pending := (db.applications.filter (fun a => a.status == "pending")).length
              approved := (db.applications.filter (fun a => a.status == "approved")).length
              rejected := (db.applications.filter (fun a => a.status == "rejected")).length
              total := db.applications.length }, ?_, ?_⟩
    · simp [get_application_stats, api_bind_ok, hu, ha]
    · exact (three_status_count db.applications hall).symm

/-- Witness for C7 at concrete inputs: on `baseDB` the non-admin Alice gets a
403, while the admin gets counts whose total is the sum of the three. -/
theorem C7_witness :
    get_application_stats (some "alice@x") baseDB = .error ⟨403, "Admin access required"⟩
    ∧ ∃ r, get_application_stats (some "admin@x") baseDB = .ok r
        ∧ r.total = r.pending + r.approved + r.rejected :=
  ⟨(C7_stats_admin_only_and_total (some "alice@x") baseDB aliceU rfl).1 rfl,
   (C7_stats_admin_only_and_total (some "admin@x") baseDB adminU rfl).2 rfl (by decide)⟩

/-- C5: everything a non-admin gets back from GET /applications carries the
caller's own `user_id`, for every value of the status filter (absent, empty
or concrete). -/
theorem C5_nonadmin_listing_only_own_rows
    (cookie : Option String) (status : Option String) (db : DB) (u : User)
    (items : List ApplicationWithDetails)
    (hu : get_current_user cookie db = .ok u)
    (hna : u.is_admin = false)
    (hcall : list_applications cookie status db = .ok items) :
    ∀ x ∈ items, x.user_id = u.user_id := by
  intro x hx
  cases status with
  | none =>
    simp only [list_applications, api_bind_ok, hu, hna, Bool.false_eq_true, if_false,
      Except.ok.injEq] at hcall
    subst hcall
    rcases List.mem_map.1 hx with ⟨r, hr, rfl⟩
    rw [mem_sortDescBy] at hr
    have h2 := (List.mem_filter.1 hr).2
    simp only [beq_iff_eq] at h2
    exact h2
  | some s =>
    by_cases hse : s = ""
    · simp only [list_applications, api_bind_ok, hu, hna, Bool.false_eq_true, if_false,
        hse, beq_self_eq_true, if_true, Except.ok.injEq] at hcall
      subst hcall
      rcases List.mem_map.1 hx with ⟨r, hr, rfl⟩
      rw [mem_sortDescBy] at hr
      have h2 := (List.mem_filter.1 hr).2
      simp only [beq_iff_eq] at h2
      exact h2
    · have hbeq : (s == "") = false := beq_eq_false_iff_ne.mpr hse
      simp only [list_applications, api_bind_ok, hu, hna, Bool.false_eq_true, if_false,
        hbeq, Except.ok.injEq] at hcall
      subst hcall
      rcases List.mem_map.1 hx with ⟨r, hr, rfl⟩
      rw [mem_sortDescBy] at hr
      have h1 := (List.mem_filter.1 hr).1
      have h2 := (List.mem_filter.1 h1).2
      simp only [beq_iff_eq] at h2
      exact h2

/-- Witness for C5 at a concrete input: Alice's unfiltered listing on `baseDB`
is a single row, and it carries her id. -/
theorem C5_witness :
    (mkDetails (appApproved, aliceU, pet0)).user_id = aliceU.user_id :=
  C5_nonadmin_listing_only_own_rows (some "alice@x") none baseDB aliceU
    [mkDetails (appApproved, aliceU, pet0)] rfl rfl rfl
    (mkDetails (appApproved, aliceU, pet0)) (List.mem_singleton.mpr rfl)

/-- Finding nothing in the first list makes `find?` on an append search the
second list. -/
theorem find?_append_of_none {α : Type} (p : α → Bool) (l₁ l₂ : List α)
    (h : l₁.find? p = none) : (l₁ ++ l₂).find? p = l₂.find? p := by
  rw [List.find?_append, h, Option.none_or]

/-- C3: the add/remove favorite sequence from a state with no favorite for
(caller, pet): the first add succeeds and appends exactly one row; an
immediate second add is a 400 Conflict; a remove after the add succeeds; a
remove in the initial state is a 404; and the add preserves the
at-most-one-favorite-per-pair invariant. -/
theorem C3_favorite_add_remove_sequence
    (cookie : Option String) (pid now : Nat) (db : DB) (u : User) (pet : Pet)
    (hu : get_current_user cookie db = .ok u)
    (hp : db.pets.find? (fun p => p.pet_id == pid) = some pet)
    (hno : db.favorites.find? (fun f =>
      f.user_id == u.user_id && f.pet_id == pid) = none) :
    add_favorite cookie pid now db =
      .ok ("Pet added to favorites", dbAfterAdd db u pid now)
    ∧ (∀ later, add_favorite cookie pid later (dbAfterAdd db u pid now) =
        .error ⟨400, "Pet already in favorites"⟩)
    ∧ (∃ r, remove_favorite cookie pid (dbAfterAdd db u pid now) = .ok r)
    ∧ remove_favorite cookie pid db = .error ⟨404, "Pet not in favorites"⟩
    ∧ (AtMostOnePerPair db → AtMostOnePerPair (dbAfterAdd db u pid now)) := by
  have hu1 : get_current_user cookie (dbAfterAdd db u pid now) = .ok u := hu
  have hp1 : (dbAfterAdd db u pid now).pets.find? (fun p => p.pet_id == pid) = some pet := hp
  have hfound : (dbAfterAdd db u pid now).favorites.find?
      (fun f => f.user_id == u.user_id && f.pet_id == pid) =
      some (addedFav db u pid now) := by
    show (db.favorites ++ [addedFav db u pid now]).find? _ = _
    rw [find?_append_of_none _ _ _ hno]
    simp [List.find?, addedFav]
  refine ⟨?_, ?_, ?_, ?_, ?_⟩
  · simp [add_favorite, api_bind_ok, hu, hp, hno, dbAfterAdd, addedFav]
  · intro later
    simp [add_favorite, api_bind_ok, hu1, hp1, hfound]
  · refine ⟨("Pet removed from favorites",
      { dbAfterAdd db u pid now with
          favorites := (dbAfterAdd db u pid now).favorites.filter (fun f =>
            f.favorite_id != (addedFav db u pid now).favorite_id) }), ?_⟩
    simp [remove_favorite, api_bind_ok, hu1, hfound]
  · simp [remove_favorite, api_bind_ok, hu, hno]
  · intro hinv uid pid'
    show ((db.favorites ++ [addedFav db u pid now]).filter _).length ≤ 1
    rw [List.filter_append]
    simp only [List.length_append]
    by_cases hcase : uid = u.user_id ∧ pid' = pid
    · rw [hcase.1, hcase.2]
      have hnil : db.favorites.filter
          (fun f => f.user_id == u.user_id && f.pet_id == pid) = [] :=
        List.filter_eq_nil_iff.mpr (List.find?_eq_none.mp hno)
      rw [hnil]
      simp [addedFav]
    · have hf : ((addedFav db u pid now).user_id == uid
          && (addedFav db u pid now).pet_id == pid') = false := by
        rw [Bool.and_eq_false_iff]
        by_cases h1 : uid = u.user_id
        · right
          rw [beq_eq_false_iff_ne]
          exact fun hq => hcase ⟨h1, hq.symm⟩
        · left
          rw [beq_eq_false_iff_ne]
          exact fun hh => h1 hh.symm
      rw [List.filter_singleton, hf]
      simpa using hinv uid pid'

/-- Witness for C3 at a concrete input: Bob and Max on `baseDB`, which holds
no favorites at all. -/
theorem C3_witness :
    add_favorite (some "bob@x") 1 6 baseDB =
      .ok ("Pet added to favorites", dbAfterAdd baseDB bobU 1 6)
    ∧ add_favorite (some "bob@x") 1 8 (dbAfterAdd baseDB bobU 1 6) =
      .error ⟨400, "Pet already in favorites"⟩
    ∧ (∃ r, remove_favorite (some "bob@x") 1 (dbAfterAdd baseDB bobU 1 6) = .ok r)
    ∧ remove_favorite (some "bob@x") 1 baseDB = .error ⟨404, "Pet not in favorites"⟩ := by
  obtain ⟨h1, h2, h3, h4, _⟩ :=
    C3_favorite_add_remove_sequence (some "bob@x") 1 6 baseDB bobU pet0 rfl rfl rfl
  exact ⟨h1, h2 8, h3, h4⟩

/-- Filtering by a weaker predicate first does not change the result of
`find?` by a stronger one. -/
theorem find?_filter_of_imp {α : Type} (l : List α) (p q : α → Bool)
    (h : ∀ x ∈ l, p x = true → q x = true) :
    (l.filter q).find? p = l.find? p := by
  induction l with
  | nil => rfl
  | cons x xs ih =>
    have hxs := fun a ha => h a (List.mem_cons_of_mem x ha)
    by_cases hq : q x = true
    · rw [List.filter_cons_of_pos hq]
      by_cases hp : p x = true
      · rw [List.find?_cons_of_pos _ hp, List.find?_cons_of_pos _ hp]
      · rw [List.find?_cons_of_neg _ hp, List.find?_cons_of_neg _ hp, ih hxs]
    · have hp : ¬ p x = true := fun hpx => hq (h x (List.mem_cons_self x xs) hpx)
      rw [List.filter_cons_of_neg hq, List.find?_cons_of_neg _ hp, ih hxs]

/-- Filtering by a weaker predicate first does not change the result of
filtering by a stronger one. -/
theorem filter_filter_of_imp {α : Type} (l : List α) (p q : α → Bool)
    (h : ∀ x ∈ l, p x = true → q x = true) :
    (l.filter q).filter p = l.filter p := by
  induction l with
  | nil => rfl
  | cons x xs ih =>
    have hxs := fun a ha => h a (List.mem_cons_of_mem x ha)
    by_cases hq : q x = true
    · rw [List.filter_cons_of_pos hq]
      by_cases hp : p x = true
      · rw [List.filter_cons_of_pos hp, List.filter_cons_of_pos hp, ih hxs]
      · rw [List.filter_cons_of_neg hp, List.filter_cons_of_neg hp, ih hxs]
    · have hp : ¬ p x = true := fun hpx => hq (h x (List.mem_cons_self x xs) hpx)
      rw [List.filter_cons_of_neg hq, List.filter_cons_of_neg hp, ih hxs]

/-- C4: every favorites operation is scoped to the authenticated caller, with
no admin override.  Writes: a successful add or remove (the latter under
primary-key uniqueness of the favorites table) leaves the rows of every other
user untouched.  Reads: check, list and list-ids give the same answer on the
database cut down to the caller's own rows.  Independence: another user's
check, for any pet, is unchanged by the caller's successful add. -/
theorem C4_favorites_private_to_caller
    (cookie : Option String) (db : DB) (u : User)
    (hu : get_current_user cookie db = .ok u) :
    (∀ pid now m db', add_favorite cookie pid now db = .ok (m, db') →
      db'.favorites.filter (fun f => !(f.user_id == u.user_id)) =
        db.favorites.filter (fun f => !(f.user_id == u.user_id)))
    ∧ ((db.favorites.map (fun f => f.favorite_id)).Nodup →
      ∀ pid m db', remove_favorite cookie pid db = .ok (m, db') →
        db'.favorites.filter (fun f => !(f.user_id == u.user_id)) =
          db.favorites.filter (fun f => !(f.user_id == u.user_id)))
    ∧ (∀ pid, check_favorite cookie pid db =
        check_favorite cookie pid (ownFavoritesOnly db u))
    ∧ list_favorites cookie db = list_favorites cookie (ownFavoritesOnly db u)
    ∧ list_favorite_ids cookie db = list_favorite_ids cookie (ownFavoritesOnly db u)
    ∧ (∀ cookB uB, get_current_user cookB db = .ok uB → uB.user_id ≠ u.user_id →
      ∀ pid pid2 now m db', add_favorite cookie pid now db = .ok (m, db') →
        check_favorite cookB pid2 db' = check_favorite cookB pid2 db) := by
  have hu2 : get_current_user cookie (ownFavoritesOnly db u) = .ok u := hu
  have hadd_inv : ∀ pid now m db', add_favorite cookie pid now db = .ok (m, db') →
      db' = dbAfterAdd db u pid now := by
    intro pid now m db' hadd
    simp only [add_favorite, api_bind_ok, hu] at hadd
    split at hadd
    · exact absurd hadd (by simp)
    · split at hadd
      · exact absurd hadd (by simp)
      · simp only [Except.ok.injEq, Prod.mk.injEq] at hadd
        exact hadd.2.symm
  refine ⟨?_, ?_, ?_, ?_, ?_, ?_⟩
  · intro pid now m db' hadd
    rw [hadd_inv pid now m db' hadd]
    show (db.favorites ++ [addedFav db u pid now]).filter _ = _
    rw [List.filter_append]
    simp [addedFav]
  · intro hpk pid m db' hrem
    simp only [remove_favorite, api_bind_ok, hu] at hrem
    split at hrem
    · exact absurd hrem (by simp)
    · rename_i fav hfav
      simp only [Except.ok.injEq, Prod.mk.injEq] at hrem
      obtain ⟨-, hdb⟩ := hrem
      subst hdb
      have hfu : fav.user_id = u.user_id := by
        have hpa := List.find?_some hfav
        simp only [Bool.and_eq_true, beq_iff_eq] at hpa
        exact hpa.1
      have hmem := List.mem_of_find?_eq_some hfav
      show (db.favorites.filter _).filter _ = _
      apply filter_filter_of_imp
      intro x hx hnot
      rw [bne_iff_ne]
      intro hid
      have hxf : x = fav := List.inj_on_of_nodup_map hpk hx hmem hid
      rw [hxf, hfu] at hnot
      simp at hnot
  · intro pid
    simp only [check_favorite, api_bind_ok, hu, hu2]
    rw [show (ownFavoritesOnly db u).favorites =
      db.favorites.filter (fun f => f.user_id == u.user_id) from rfl]
    rw [find?_filter_of_imp db.favorites _ _
      (fun x _ hx => by simp only [Bool.and_eq_true] at hx; exact hx.1)]
  · simp only [list_favorites, api_bind_ok, hu, hu2]
    rw [show (ownFavoritesOnly db u).favorites =
      db.favorites.filter (fun f => f.user_id == u.user_id) from rfl]
    have hrows : ∀ p : Pet,
        ((db.favorites.filter (fun f => f.user_id == u.user_id)).filter
          (fun f => p.pet_id == f.pet_id && f.user_id == u.user_id)) =
        db.favorites.filter (fun f => p.pet_id == f.pet_id && f.user_id == u.user_id) :=
      fun p => filter_filter_of_imp _ _ _
        (fun x _ hx => by simp only [Bool.and_eq_true] at hx; exact hx.2)
    simp only [hrows]
    rw [show (ownFavoritesOnly db u).pets = db.pets from rfl]
  · simp only [list_favorite_ids, api_bind_ok, hu, hu2]
    rw [show (ownFavoritesOnly db u).favorites =
      db.favorites.filter (fun f => f.user_id == u.user_id) from rfl]
    rw [filter_filter_of_imp db.favorites _ _ (fun x _ hx => hx)]
  · intro cookB uB huB hne pid pid2 now m db' hadd
    rw [hadd_inv pid now m db' hadd]
    have huB2 : get_current_user cookB (dbAfterAdd db u pid now) = .ok uB := huB
    have hpf : ((addedFav db u pid now).user_id == uB.user_id
        && (addedFav db u pid now).pet_id == pid2) = false := by
      rw [Bool.and_eq_false_iff]
      left
      rw [beq_eq_false_iff_ne]
      exact fun hh => hne hh.symm
    have hone : ([addedFav db u pid now].find? (fun f =>
        f.user_id == uB.user_id && f.pet_id == pid2)) = none := by
      simp [List.find?, hpf]
    simp only [check_favorite, api_bind_ok, huB, huB2]
    show Except.ok ((db.favorites ++ [addedFav db u pid now]).find? _).isSome = _
    rw [List.find?_append, hone, Option.or_none]

/-- Witness for C4 at concrete inputs: Alice's check reads only her own rows,
and Bob's check of Max is unchanged by Alice's successful add of Max. -/
theorem C4_witness :
    check_favorite (some "alice@x") 1 baseDB =
      check_favorite (some "alice@x") 1 (ownFavoritesOnly baseDB aliceU)
    ∧ check_favorite (some "bob@x") 1 (dbAfterAdd baseDB aliceU 1 6) =
      check_favorite (some "bob@x") 1 baseDB := by
  obtain ⟨-, -, h3, -, -, h6⟩ :=
    C4_favorites_private_to_caller (some "alice@x") baseDB aliceU rfl
  exact ⟨h3 1, h6 (some "bob@x") bobU rfl (by decide) 1 1 6 "Pet added to favorites"
    (dbAfterAdd baseDB aliceU 1 6) rfl⟩

/-- C9 fails on the code: POST /locations performs no authentication or
authorization check at all — the handler declares no identity dependency —
so a request with no session cookie (identity unresolvable, here on
`baseDB`) still creates a location. -/
theorem C9_counterexample :
    get_current_user none baseDB = .error ⟨401, "Not authenticated"⟩
    ∧ create_location none locData baseDB =
      .ok (newLocation locData baseDB, dbAfterLocation locData baseDB)
    ∧ (dbAfterLocation locData baseDB).locations.length =
      baseDB.locations.length + 1 :=
  ⟨rfl, rfl, rfl⟩

/-- C9 (amended): location creation requires no admin action and no identity:
for every request — any session cookie or none, any database — the handler
inserts the payload's location (phone defaulted to the empty string when
falsy) and returns it. -/
theorem C9_amended_create_location_needs_no_identity
    (cookie : Option String) (payload : LocationCreate) (db : DB) :
    create_location cookie payload db =
      .ok (newLocation payload db, dbAfterLocation payload db)
    ∧ (dbAfterLocation payload db).locations =
      db.locations ++ [newLocation payload db]
    ∧ (newLocation payload db).name = payload.name
    ∧ (newLocation payload db).address = payload.address :=
  ⟨rfl, rfl, rfl, rfl⟩

/-- C10: registration never grants admin privileges: a successful
POST /auth/register inserts a user whose admin flag is the hard-coded
`False`, whatever the payload; and POST /users, the only endpoint that can
mint an admin account, is a 403 for every authenticated non-admin caller. -/
theorem C10_registration_never_grants_admin
    (hash : String → String) (data : RegisterRequest) (now : Nat) (db : DB) :
    (∀ usr db', register hash data now db = .ok (usr, db') →
      usr.is_admin = false ∧ db'.users = db.users ++ [usr])
    ∧ (∀ cookie ud u, get_current_user cookie db = .ok u → u.is_admin = false →
      create_user hash cookie ud now db =
        .error ⟨403, "Admin privileges required"⟩) := by
  constructor
  · intro usr db' hreg
    simp only [register] at hreg
    split at hreg
    · exact absurd hreg (by simp)
    · simp only [Except.ok.injEq, Prod.mk.injEq] at hreg
      obtain ⟨h1, h2⟩ := hreg
      exact ⟨by rw [← h1], by rw [← h1, ← h2]⟩
  · intro cookie ud u hcu hna
    simp [create_user, api_bind_ok, hcu, hna]

/-- Witness for C10 at concrete inputs: registering Carol on `baseDB` yields
a non-admin account, and the non-admin Alice cannot invoke POST /users even
when asking for an admin account. -/
theorem C10_witness :
    (∃ usr db', register (fun s => s) ⟨"carol@x", "pw123456", "Carol"⟩ 5 baseDB =
        .ok (usr, db') ∧ usr.is_admin = false)
    ∧ create_user (fun s => s) (some "alice@x") ⟨"dave@x", "pw123456", "Dave", true⟩
        5 baseDB = .error ⟨403, "Admin privileges required"⟩ := by
  obtain ⟨h1, h2⟩ := C10_registration_never_grants_admin (fun s => s)
    ⟨"carol@x", "pw123456", "Carol"⟩ 5 baseDB
  refine ⟨⟨_, _, rfl, ?_⟩, ?_⟩
  · exact (h1 _ _ rfl).1
  · exact h2 (some "alice@x") ⟨"dave@x", "pw123456", "Dave", true⟩ aliceU rfl rfl
